import Mathlib

/-!
Shallow embedding of the profile-page component in
`src/components/profile/main-section.tsx`. The file holds two successive
versions of the same React component; we embed the first version's store
operations in namespace `V1` and the second version's (with grid-span
support) in namespace `V2`. Pixel quantities are modelled as rationals,
spans as integers, and the random id generator is modelled as an oracle
parameter carrying the string it returned.
-/

namespace Profile

/-- The closed set of card kinds (the `type` field of `CardData`). -/
inductive CardType where
  | twitter
  | youtube
  | github
  | coffee
  | mastodon
  | ios
  deriving DecidableEq

namespace V1

/-- `CardData` of the first component version: identity, kind, display
strings, and the optional last-resized pixel dimensions. -/
structure CardData where
  id : String
  type : CardType
  title : String
  subtitle : Option String := none
  buttonText : Option String := none
  buttonUrl : Option String := none
  imageUrl : Option String := none
  width : Option ℚ := none
  height : Option ℚ := none
  deriving DecidableEq

/-- First version's `handleDeleteCard`: keep the cards whose id differs. -/
def handleDeleteCard (cards : List CardData) (id : String) : List CardData :=
  cards.filter (fun card => card.id != id)

/-- First version's `handleDuplicateCard`: when the store is non-empty,
append a copy of the first card carrying the freshly generated id (the
`newId` oracle argument stands for the `generateId()` call) and the title
with " (Copy)" appended. -/
def handleDuplicateCard (cards : List CardData) (newId : String) : List CardData :=
  match cards with
  | [] => []
  | firstCard :: _ =>
      cards ++ [{ firstCard with id := newId, title := firstCard.title ++ " (Copy)" }]

end V1

namespace V2

/-- `CardData` of the second component version: as in `V1` plus the
optional grid span overrides `gridColumn` and `gridRow`. -/
structure CardData where
  id : String
  type : CardType
  title : String
  subtitle : Option String := none
  buttonText : Option String := none
  buttonUrl : Option String := none
  imageUrl : Option String := none
  width : Option ℚ := none
  height : Option ℚ := none
  gridColumn : Option ℤ := none
  gridRow : Option ℤ := none
  deriving DecidableEq

/-- The `gridSize` state value: number of columns and gap in pixels. -/
structure GridSize where
  columns : ℕ
  gap : ℚ
  deriving DecidableEq

/-- `calculateGridSpan` of the second version, as a function of the
`gridSize` prop, the measured container width (the DOM
`parentElement.offsetWidth`, an input here) and the card's new width:
returns 1 when the column count is zero or the container width is zero,
otherwise `max(1, min(columns, ceil((width + gap) / (singleColWidth + gap))))`
where `singleColWidth = (containerWidth - gap*(columns-1)) / columns`. -/
def calculateGridSpan (gridSize : GridSize) (containerWidth : ℚ) (width : ℚ) : ℤ :=
  if gridSize.columns = 0 then 1
  else if containerWidth = 0 then 1
  else
    let singleColWidth : ℚ :=
      (containerWidth - gridSize.gap * ((gridSize.columns : ℚ) - 1)) / (gridSize.columns : ℚ)
    max 1 (min (gridSize.columns : ℤ) ⌈(width + gridSize.gap) / (singleColWidth + gridSize.gap)⌉)

/-- Second version's `handleDeleteCard`: keep the cards whose id differs. -/
def handleDeleteCard (cards : List CardData) (id : String) : List CardData :=
  cards.filter (fun card => card.id != id)

/-- Second version's `handleResizeCard`: replace `width`, `height` and
`gridColumn` on the card whose id matches, leaving other cards alone. -/
def handleResizeCard (cards : List CardData) (id : String) (width height : ℚ)
    (gridColumn : ℤ) : List CardData :=
  cards.map (fun card =>
    if card.id = id then
      { card with width := some width, height := some height, gridColumn := some gridColumn }
    else card)

/-- Second version's `handleDuplicateCard`, with the `generateId()` result
passed as the `newId` oracle argument. -/
def handleDuplicateCard (cards : List CardData) (newId : String) : List CardData :=
  match cards with
  | [] => []
  | firstCard :: _ =>
      cards ++ [{ firstCard with id := newId, title := firstCard.title ++ " (Copy)" }]

/-- JavaScript `Array.prototype.findIndex` over the card ids: the index of
the first matching card, and -1 when no card matches. -/
def jsFindIndex (cards : List CardData) (id : String) : ℤ :=
  match cards.findIdx? (fun item => item.id == id) with
  | some i => (i : ℤ)
  | none => -1

/-- The effective start index of a JavaScript `splice(start, ...)` call on
an array of length `n`: a negative start counts back from the end and is
clamped at 0, a non-negative start is clamped at `n`. -/
def spliceStart (n : ℕ) (i : ℤ) : ℕ :=
  if i < 0 then ((n : ℤ) + i).toNat else min i.toNat n

/-- `arrayMove` from the `@dnd-kit/sortable` dependency, which
`handleDragEnd` calls: `newArray.splice(to < 0 ? newArray.length + to : to,
0, newArray.splice(from, 1)[0])` on a copy of the array. The insertion
position argument is evaluated against the original length before the
removal happens; `none` models the branch in which `splice(from, 1)`
removes nothing, so that JavaScript would insert `undefined`. -/
def arrayMove (l : List α) (fromIdx toIdx : ℤ) : Option (List α) :=
  let v : ℤ := if toIdx < 0 then (l.length : ℤ) + toIdx else toIdx
  let fromPos : ℕ := spliceStart l.length fromIdx
  if h : fromPos < l.length then
    let x := l[fromPos]
    let rest := l.take fromPos ++ l.drop (fromPos + 1)
    let insPos : ℕ := spliceStart rest.length v
    some (rest.take insPos ++ x :: rest.drop insPos)
  else
    none

/-- Second version's `handleDragEnd`: when the drop target exists and
differs from the drag source, look up both indices with `findIndex` and
call `arrayMove`. -/
def handleDragEnd (cards : List CardData) (activeId overId : String) :
    Option (List CardData) :=
  if activeId ≠ overId then
    arrayMove cards (jsFindIndex cards activeId) (jsFindIndex cards overId)
  else some cards

/-- Seed card with id "1" of the second version. -/
def card1 : CardData :=
  { id := "1", type := .twitter, title := "My Tweeet\x27s", buttonText := some "Follow",
    gridColumn := some 1 }

/-- Seed card with id "2" of the second version. -/
def card2 : CardData :=
  { id := "2", type := .youtube, title := "Some Tutorials", buttonText := some "Subscribe",
    gridColumn := some 1 }

/-- Seed card with id "3" of the second version. -/
def card3 : CardData :=
  { id := "3", type := .github, title := "Github", gridColumn := some 1 }

/-- Seed card with id "4" of the second version. -/
def card4 : CardData :=
  { id := "4", type := .coffee, title := "Buy me a Coffee", buttonText := some "Support",
    gridColumn := some 1 }

/-- Seed card with id "5" of the second version. -/
def card5 : CardData :=
  { id := "5", type := .mastodon, title := "Ivory for Mastodon", subtitle := some "by Tapbots",
    buttonText := some "Get", imageUrl := some "/placeholder.svg?height=80&width=150",
    gridColumn := some 1 }

/-- Seed card with id "6" of the second version. -/
def card6 : CardData :=
  { id := "6", type := .ios, title := "iOS UI Kit", gridColumn := some 1 }

/-- The six hard-coded seed cards of the second version. -/
def initialCards : List CardData := [card1, card2, card3, card4, card5, card6]

/-- `updateGridSize` of the second version: the grid configuration derived
from the viewport width bands (at least 1024px gives 3 columns, at least
640px gives 2, otherwise 1; the gap is always 16px). -/
def updateGridSize (innerWidth : ℚ) : GridSize :=
  if innerWidth ≥ 1024 then { columns := 3, gap := 16 }
  else if innerWidth ≥ 640 then { columns := 2, gap := 16 }
  else { columns := 1, gap := 16 }

/-- The page-level state of the second version: the grid configuration and
the card store. -/
structure PageState where
  gridSize : GridSize
  cards : List CardData
  deriving DecidableEq

/-- The state at mount: `useState` initialises `gridSize` to 3 columns with
a 16px gap and the store to the six seed cards. -/
def initialState : PageState :=
  { gridSize := { columns := 3, gap := 16 }, cards := initialCards }

/-- One UI event of the second version, as a relation between page states.
DOM-measured quantities (committed width and height, container width,
viewport width) and the generated id are inputs of the corresponding
constructor. A resize commit (`handleMouseUp`) stores the measured size
together with `calculateGridSpan` of the measured width; a drag end applies
`handleDragEnd`; a viewport resize recomputes `gridSize` via
`updateGridSize` and touches no card. -/
inductive Step : PageState → PageState → Prop where
  | deleteCard (s : PageState) (id : String) :
      Step s { s with cards := handleDeleteCard s.cards id }
  | resizeCommit (s : PageState) (id : String) (w h containerWidth : ℚ) :
      Step s { s with cards :=
        handleResizeCard s.cards id w h (calculateGridSpan s.gridSize containerWidth w) }
  | duplicateCard (s : PageState) (newId : String) :
      Step s { s with cards := handleDuplicateCard s.cards newId }
  | dragEnd (s : PageState) (a b : String) (r : List CardData)
      (h : handleDragEnd s.cards a b = some r) :
      Step s { s with cards := r }
  | viewportResize (s : PageState) (innerWidth : ℚ) :
      Step s { s with gridSize := updateGridSize innerWidth }

/-- The page states reachable from the mount state by UI events. -/
inductive Reachable : PageState → Prop where
  | init : Reachable initialState
  | step {s t : PageState} : Reachable s → Step s t → Reachable t

end V2

/-- Modelled from the spec: the resize-to-grid-span algorithm as the spec
words it in its four numbered steps, used to compare against the code's
`calculateGridSpan`. Step 1 returns span 1 on a degenerate configuration;
steps 2 and 3 compute the single-column width and the raw ceiling span;
step 4 clamps the raw span to the interval from 1 to the column count. -/
def specResizeToGridSpan (columnCount : ℕ) (gapPixels containerPixelWidth
    measuredPixelWidth : ℚ) : ℤ :=
  if columnCount = 0 ∨ containerPixelWidth = 0 then 1
  else
    let singleColumnWidth : ℚ :=
      (containerPixelWidth - gapPixels * ((columnCount : ℚ) - 1)) / (columnCount : ℚ)
    let rawSpan : ℤ :=
      ⌈(measuredPixelWidth + gapPixels) / (singleColumnWidth + gapPixels)⌉
    if rawSpan < 1 then 1 else if (columnCount : ℤ) < rawSpan then (columnCount : ℤ) else rawSpan

/-- The field-forgetting projection from the second version's card record
onto the first version's: the shared fields are kept and the grid span
fields added by the second version are dropped. -/
def forgetGridFields (card : V2.CardData) : V1.CardData :=
  { id := card.id, type := card.type, title := card.title, subtitle := card.subtitle,
    buttonText := card.buttonText, buttonUrl := card.buttonUrl, imageUrl := card.imageUrl,
    width := card.width, height := card.height }

namespace V2

/-- Whenever the grid has at least one column, `calculateGridSpan` yields a
value between 1 and the column count, for every container width and every
measured width. -/
theorem calculateGridSpan_bounds (gridSize : GridSize) (containerWidth width : ℚ)
    (hcols : 1 ≤ gridSize.columns) :
    1 ≤ calculateGridSpan gridSize containerWidth width ∧
    calculateGridSpan gridSize containerWidth width ≤ (gridSize.columns : ℤ) := by
  have hc : ¬ gridSize.columns = 0 := by omega
  have hc1 : (1 : ℤ) ≤ (gridSize.columns : ℤ) := by exact_mod_cast hcols
  unfold calculateGridSpan
  by_cases hw : containerWidth = 0
  · simp only [hc, if_false, hw, if_true]
    exact ⟨le_refl 1, hc1⟩
  · simp only [hc, if_false, hw]
    omega

end V2

end Profile

namespace Profile

open V2

/-- Claim C1: the resize-to-grid-span calculator, as a function of the
measured pixel width, the grid configuration and the container pixel
width, agrees with the spec's four-step algorithm (degenerate guard,
single-column width, raw ceiling span, clamp to the interval from 1 to
the column count) at every input. -/
theorem c1_grid_span_follows_spec (gridSize : GridSize) (containerWidth width : ℚ) :
    calculateGridSpan gridSize containerWidth width
      = specResizeToGridSpan gridSize.columns gridSize.gap containerWidth width := by
  unfold calculateGridSpan specResizeToGridSpan
  by_cases hc : gridSize.columns = 0
  · simp [hc]
  · have hc1 : (1 : ℤ) ≤ (gridSize.columns : ℤ) := by
      have : 1 ≤ gridSize.columns := by omega
      exact_mod_cast this
    by_cases hw : containerWidth = 0
    · simp [hc, hw]
    · simp only [hc, hw, or_self, if_false, false_or]
      omega

/-- Claim C2: for every non-negative measured width and every grid
configuration arising in the page (the viewport bands always give at least
one column), the grid-span calculator returns a value in the interval from
1 to the column count: never 0, never negative, never more than the grid
has. -/
theorem c2_grid_span_in_range (gridSize : GridSize) (containerWidth width : ℚ)
    (hcols : 1 ≤ gridSize.columns) (hwidth : 0 ≤ width) :
    1 ≤ calculateGridSpan gridSize containerWidth width ∧
    calculateGridSpan gridSize containerWidth width ≤ (gridSize.columns : ℤ) :=
  calculateGridSpan_bounds gridSize containerWidth width hcols

/-- Witness for claim C2 at the spec's own worked example: a 900px card in
a 900px container with 3 columns and a 16px gap. -/
theorem c2_witness :
    1 ≤ calculateGridSpan { columns := 3, gap := 16 } 900 900 ∧
    calculateGridSpan { columns := 3, gap := 16 } 900 900
      ≤ ((({ columns := 3, gap := 16 } : GridSize).columns : ℕ) : ℤ) :=
  c2_grid_span_in_range { columns := 3, gap := 16 } 900 900 (by norm_num) (by norm_num)

/-- Claim C5: after a resize, the matching card carries exactly the new
width, height and grid column span, all its other fields are unchanged,
every other card is unchanged, and a resize whose id is absent leaves the
whole store unchanged. -/
theorem c5_resize_card (cards : List CardData) (id : String) (w h : ℚ) (g : ℤ) :
    (id ∉ cards.map CardData.id → handleResizeCard cards id w h g = cards) ∧
    ∀ i : ℕ, ∀ c c' : CardData, cards[i]? = some c →
      (handleResizeCard cards id w h g)[i]? = some c' →
      (c.id = id →
        c'.width = some w ∧ c'.height = some h ∧ c'.gridColumn = some g ∧
        c'.id = c.id ∧ c'.type = c.type ∧ c'.title = c.title ∧
        c'.subtitle = c.subtitle ∧ c'.buttonText = c.buttonText ∧
        c'.buttonUrl = c.buttonUrl ∧ c'.imageUrl = c.imageUrl ∧
        c'.gridRow = c.gridRow) ∧
      (c.id ≠ id → c' = c) := by
  constructor
  · intro habs
    unfold handleResizeCard
    refine (List.map_congr_left ?_).trans (List.map_id' cards)
    intro c hc
    rw [if_neg]
    intro hid
    exact habs (hid ▸ List.mem_map_of_mem CardData.id hc)
  · intro i c c' hc hc'
    unfold handleResizeCard at hc'
    rw [List.getElem?_map, hc, Option.map_some'] at hc'
    by_cases hid : c.id = id
    · rw [if_pos hid] at hc'
      cases hc'
      exact ⟨fun _ => ⟨rfl, rfl, rfl, rfl, rfl, rfl, rfl, rfl, rfl, rfl, rfl⟩,
             fun hne => absurd hid hne⟩
    · rw [if_neg hid] at hc'
      cases hc'
      exact ⟨fun heq => absurd heq hid, fun _ => rfl⟩

/-- Witness for claim C5: resizing an id that is not in the seed store is a
no-op, obtained from the theorem with the absence hypothesis discharged. -/
theorem c5_witness : handleResizeCard initialCards "zz" 200 300 2 = initialCards :=
  (c5_resize_card initialCards "zz" 200 300 2).1 (by decide)

/-- Claim C6: deleting an id removes exactly the cards with that id while
keeping the remaining cards in their relative order (the result is a
sublist), is a no-op when the id is absent, is idempotent, and deleting id
"3" from the six-card seed store leaves the five other ids in order. -/
theorem c6_delete_card (cards : List CardData) (id : String) :
    (∀ c ∈ handleDeleteCard cards id, c.id ≠ id) ∧
    (id ∉ cards.map CardData.id → handleDeleteCard cards id = cards) ∧
    handleDeleteCard (handleDeleteCard cards id) id = handleDeleteCard cards id ∧
    (handleDeleteCard cards id).Sublist cards ∧
    (handleDeleteCard initialCards "3").map CardData.id = ["1", "2", "4", "5", "6"] := by
  refine ⟨?_, ?_, ?_, ?_, by decide⟩
  · intro c hc
    have := (List.mem_filter.mp hc).2
    simpa using this
  · intro habs
    apply List.filter_eq_self.mpr
    intro c hc
    have : c.id ≠ id := fun hid => habs (hid ▸ List.mem_map_of_mem CardData.id hc)
    simpa using this
  · apply List.filter_eq_self.mpr
    intro c hc
    exact (List.mem_filter.mp hc).2
  · exact List.filter_sublist cards

/-- Witness for claim C6: deleting an id absent from the seed store leaves
it unchanged, obtained from the theorem with the hypothesis discharged. -/
theorem c6_witness : handleDeleteCard initialCards "zz" = initialCards :=
  (c6_delete_card initialCards "zz").2.1 (by decide)

/-- Claim C3 (amended): duplicating an empty store is a no-op; duplicating
a non-empty store appends exactly one card, the clone of the first card
carrying the generated id and the title with " (Copy)" appended, leaving
all pre-existing cards unchanged in their order; and the new card's id is
distinct from all existing ids whenever the generated string is not
already among them (which the random generator does not guarantee). -/
theorem c3_duplicate_card (cards : List CardData) (newId : String) :
    handleDuplicateCard ([] : List CardData) newId = [] ∧
    ∀ firstCard rest, cards = firstCard :: rest →
      handleDuplicateCard cards newId
        = cards ++ [{ firstCard with id := newId, title := firstCard.title ++ " (Copy)" }] ∧
      (handleDuplicateCard cards newId).length = cards.length + 1 ∧
      (newId ∉ cards.map CardData.id → ∀ c ∈ cards,
        ({ firstCard with id := newId, title := firstCard.title ++ " (Copy)" } : CardData).id
          ≠ c.id) := by
  refine ⟨rfl, ?_⟩
  rintro firstCard rest rfl
  refine ⟨rfl, by simp [handleDuplicateCard], ?_⟩
  intro hfresh c hc hid
  have hmem : c.id ∈ (firstCard :: rest).map CardData.id :=
    List.mem_map_of_mem CardData.id hc
  have : newId = c.id := hid
  rw [← this] at hmem
  exact hfresh hmem

/-- Witness for claim C3: duplicating the seed store with generated id
"abc1234" appends the clone of the first seed card with that id and the
copied title; obtained from the theorem with the shape hypothesis
discharged. -/
theorem c3_witness :
    handleDuplicateCard initialCards "abc1234"
      = initialCards ++ [{ card1 with id := "abc1234", title := card1.title ++ " (Copy)" }] :=
  ((c3_duplicate_card initialCards "abc1234").2 card1 [card2, card3, card4, card5, card6]
    rfl).1

/-- Counterexample for claim C3: the generated id is the raw output of
`Math.random().toString(36).substring(2, 9)`, which can repeat (for
example the draw 0.5 prints as "0.i", so two such draws both yield the id
"i"). Duplicating twice with the colliding generated id "i" yields a new
last card whose id "i" already occurs among the existing ids, refuting
the claimed unconditional distinctness. -/
theorem c3_counterexample :
    ((handleDuplicateCard (handleDuplicateCard initialCards "i") "i").getLast?).map CardData.id
      = some "i" ∧
    "i" ∈ (handleDuplicateCard initialCards "i").map CardData.id ∧
    (handleDuplicateCard (handleDuplicateCard initialCards "i") "i").length
      = (handleDuplicateCard initialCards "i").length + 1 := by decide

/-- Claim C9 (amended): a committed resize writes the card's width, height
and grid column span, but never its grid row span: `gridRow` of every
card is exactly what it was before the resize, while the matching card's
`gridColumn` does become the committed span. -/
theorem c9_resize_row_span (cards : List CardData) (id : String) (w h : ℚ) (g : ℤ) :
    (handleResizeCard cards id w h g).map CardData.gridRow = cards.map CardData.gridRow ∧
    ∀ c ∈ handleResizeCard cards id w h g, c.id = id → c.gridColumn = some g := by
  constructor
  · unfold handleResizeCard
    rw [List.map_map]
    apply List.map_congr_left
    intro c hc
    by_cases hid : c.id = id <;> simp [hid]
  · intro c hc hid
    unfold handleResizeCard at hc
    obtain ⟨a, ha, rfl⟩ := List.mem_map.mp hc
    by_cases h2 : a.id = id
    · simp [h2]
    · simp only [if_neg h2] at hid
      exact absurd hid h2

/-- Witness for claim C9: committing a resize on seed card "1" leaves the
row spans of the whole store untouched; obtained from the theorem. -/
theorem c9_witness :
    (handleResizeCard initialCards "1" 900 200 3).map CardData.gridRow
      = initialCards.map CardData.gridRow :=
  (c9_resize_row_span initialCards "1" 900 200 3).1

/-- Counterexample for claim C9: committing the resize of seed card "1" to
900 by 200 pixels (grid span computed by `calculateGridSpan`) changes the
stored widths, yet every card's `gridRow` is still unset afterwards — the
resize pipeline never writes a row span. -/
theorem c9_counterexample :
    (handleResizeCard initialCards "1" 900 200
        (calculateGridSpan { columns := 3, gap := 16 } 900 900)).map CardData.gridRow
      = [none, none, none, none, none, none] ∧
    (handleResizeCard initialCards "1" 900 200
        (calculateGridSpan { columns := 3, gap := 16 } 900 900)).map CardData.width
      ≠ initialCards.map CardData.width := by
  have h3 : calculateGridSpan { columns := 3, gap := 16 } 900 900 = 3 := by
    norm_num [calculateGridSpan]
  rw [h3]
  decide

/-- The effective start of a JavaScript splice never exceeds the array
length. -/
theorem spliceStart_le (n : ℕ) (i : ℤ) : spliceStart n i ≤ n := by
  unfold spliceStart
  split
  · omega
  · exact min_le_right _ _

/-- Splicing one element in at position `n` of a list, phrased with take
and drop as the embedding of `splice` produces it, is `List.insertIdx`. -/
theorem take_cons_drop_eq_insertIdx (l : List α) (x : α) (n : ℕ) (h : n ≤ l.length) :
    l.take n ++ x :: l.drop n = List.insertIdx n x l := by
  induction l generalizing n with
  | nil =>
    cases n with
    | zero => simp [List.insertIdx]
    | succ m => simp at h
  | cons a t ih =>
    cases n with
    | zero => simp [List.insertIdx_zero]
    | succ m =>
      simp only [List.take_succ_cons, List.drop_succ_cons, List.insertIdx_succ_cons,
        List.cons_append, List.cons.injEq, true_and]
      exact ih m (by simpa using h)

/-- When both indices come from successful `findIndex` calls, `arrayMove`
removes the element at the source index and re-inserts it at the target
index. -/
theorem arrayMove_of_natIdx (l : List α) (i j : ℕ) (hi : i < l.length) (hj : j < l.length) :
    arrayMove l (i : ℤ) (j : ℤ) = some (List.insertIdx j (l.get ⟨i, hi⟩) (l.eraseIdx i)) := by
  have hfp : spliceStart l.length (i : ℤ) = i := by
    unfold spliceStart
    rw [if_neg (by omega)]
    omega
  have hrl : (l.take i ++ l.drop (i + 1)).length = l.length - 1 := by
    rw [List.length_append, List.length_take, List.length_drop]
    omega
  have hip : spliceStart (l.take i ++ l.drop (i + 1)).length ((j : ℕ) : ℤ) = j := by
    unfold spliceStart
    rw [if_neg (by omega), hrl]
    omega
  have hj1 : j ≤ (l.eraseIdx i).length := by
    rw [List.length_eraseIdx_of_lt hi]
    omega
  simp only [arrayMove]
  rw [hfp, dif_pos hi, if_neg (show ¬ ((j : ℕ) : ℤ) < 0 by omega), hip,
    ← List.eraseIdx_eq_take_drop_succ, take_cons_drop_eq_insertIdx _ _ _ hj1,
    List.get_eq_getElem]

/-- Whatever the two index arguments were, a successful `arrayMove` returns
a permutation of the input list: it removes one element and re-inserts the
same element elsewhere. -/
theorem arrayMove_perm (l : List α) (fromIdx toIdx : ℤ) (r : List α)
    (h : arrayMove l fromIdx toIdx = some r) : r.Perm l := by
  simp only [arrayMove] at h
  by_cases hlt : spliceStart l.length fromIdx < l.length
  · rw [dif_pos hlt] at h
    injection h with h
    subst h
    have hip_le :
        spliceStart (l.take (spliceStart l.length fromIdx)
            ++ l.drop (spliceStart l.length fromIdx + 1)).length
          (if toIdx < 0 then (l.length : ℤ) + toIdx else toIdx)
          ≤ (l.take (spliceStart l.length fromIdx)
            ++ l.drop (spliceStart l.length fromIdx + 1)).length :=
      spliceStart_le _ _
    refine List.Perm.trans List.perm_middle ?_
    rw [List.take_append_drop]
    have hdecomp : l = l.take (spliceStart l.length fromIdx)
        ++ l[spliceStart l.length fromIdx] :: l.drop (spliceStart l.length fromIdx + 1) := by
      conv_lhs => rw [← List.take_append_drop (spliceStart l.length fromIdx) l]
      rw [List.drop_eq_getElem_cons hlt]
    conv_rhs => rw [hdecomp]
    exact List.perm_middle.symm
  · rw [dif_neg hlt] at h
    cases h

/-- The index of the first matching card is below the length whenever
`findIndex` succeeds, and `arrayMove` from such an index always returns a
store. -/
theorem arrayMove_isSome_of_lt (l : List α) (i : ℕ) (toIdx : ℤ) (hi : i < l.length) :
    (arrayMove l (i : ℤ) toIdx).isSome = true := by
  have hfp : spliceStart l.length (i : ℤ) = i := by
    unfold spliceStart
    rw [if_neg (by omega)]
    omega
  simp only [arrayMove]
  rw [hfp, dif_pos hi]
  rfl

/-- A successful drag end permutes the store. -/
theorem handleDragEnd_perm (cards : List CardData) (a b : String) (r : List CardData)
    (h : handleDragEnd cards a b = some r) : r.Perm cards := by
  unfold handleDragEnd at h
  by_cases hab : a ≠ b
  · rw [if_pos hab] at h
    exact arrayMove_perm cards _ _ r h
  · rw [if_neg hab] at h
    injection h with h
    subst h
    exact List.Perm.refl _

/-- Claim C4 (amended): when both ids are present, the drag end moves the
source card to the position the target card occupied, shifting the
intervening cards by one (the result is the source card re-inserted at the
target's index after its removal, and it sits at that index afterwards);
equal ids are a no-op by the guard; and reordering id "1" to the position
of id "6" in the six-card seed store yields the order 2, 3, 4, 5, 6, 1.
When an id is absent, `findIndex` yields -1 and `arrayMove` splices from
the end instead of leaving the store unchanged, so the operation is not a
no-op in general in that case. -/
theorem c4_reorder (cards : List CardData) (a b : String) (i j : ℕ) (c : CardData)
    (ha : cards.findIdx? (fun item => item.id == a) = some i)
    (hb : cards.findIdx? (fun item => item.id == b) = some j)
    (hab : a ≠ b) (hc : cards[i]? = some c) :
    handleDragEnd cards a b = some (List.insertIdx j c (cards.eraseIdx i)) ∧
    (List.insertIdx j c (cards.eraseIdx i))[j]? = some c ∧
    handleDragEnd cards a a = some cards ∧
    (handleDragEnd initialCards "1" "6").map (List.map CardData.id)
      = some ["2", "3", "4", "5", "6", "1"] := by
  have hi : i < cards.length := (List.findIdx?_eq_some_iff_findIdx_eq.mp ha).1
  have hj : j < cards.length := (List.findIdx?_eq_some_iff_findIdx_eq.mp hb).1
  have hc2 : cards.get ⟨i, hi⟩ = c := by
    rw [List.get_eq_getElem, ← Option.some.injEq, ← List.getElem?_eq_getElem hi]
    exact hc
  have hja : jsFindIndex cards a = (i : ℤ) := by
    unfold jsFindIndex
    rw [ha]
  have hjb : jsFindIndex cards b = (j : ℤ) := by
    unfold jsFindIndex
    rw [hb]
  refine ⟨?_, ?_, by simp [handleDragEnd], by decide⟩
  · unfold handleDragEnd
    rw [if_pos hab, hja, hjb, arrayMove_of_natIdx cards i j hi hj, hc2]
  · have hj1 : j ≤ (cards.eraseIdx i).length := by
      rw [List.length_eraseIdx_of_lt hi]
      omega
    have hjlt : j < (List.insertIdx j c (cards.eraseIdx i)).length := by
      rw [List.length_insertIdx _ _ hj1]
      omega
    rw [List.getElem?_eq_getElem hjlt, List.getElem_insertIdx_self _ _ _ hj1]

/-- Witness for claim C4: moving seed card "1" onto seed card "6" with all
hypotheses discharged on the concrete seed store. -/
theorem c4_witness :
    handleDragEnd initialCards "1" "6"
      = some (List.insertIdx 5 card1 (initialCards.eraseIdx 0)) :=
  (c4_reorder initialCards "1" "6" 0 5 card1 (by decide) (by decide) (by decide)
    (by decide)).1

/-- Counterexample for claim C4: dragging with a source id "zz" that is
absent from the seed store and target id "1" is not a no-op — `findIndex`
returns -1, so `arrayMove` splices the last card out and re-inserts it at
the target's position, moving card "6" to the front. -/
theorem c4_counterexample :
    "zz" ∉ initialCards.map CardData.id ∧
    (handleDragEnd initialCards "zz" "1").map (List.map CardData.id)
      = some ["6", "1", "2", "3", "4", "5"] ∧
    handleDragEnd initialCards "zz" "1" ≠ some initialCards := by decide

/-- Claim C7: a drag end whose source id is present in the store (every
drag source is a rendered card) succeeds and leaves the multiset of ids
unchanged — the result's ids are a permutation of the original ids, no
card lost or duplicated; and on the stated two-card store swapping and
swapping back restores the original order. -/
theorem c7_drag_end_ids_perm (cards : List CardData) (a b : String)
    (ha : a ∈ cards.map CardData.id) :
    (∃ r, handleDragEnd cards a b = some r ∧
      (r.map CardData.id).Perm (cards.map CardData.id)) ∧
    handleDragEnd [card1, card2] "1" "2" = some [card2, card1] ∧
    handleDragEnd [card2, card1] "2" "1" = some [card1, card2] := by
  refine ⟨?_, by decide, by decide⟩
  by_cases hab : a = b
  · refine ⟨cards, ?_, List.Perm.refl _⟩
    simp [handleDragEnd, hab]
  · obtain ⟨x, hx, hxa⟩ := List.mem_map.mp ha
    have hsome : (cards.findIdx? (fun item => item.id == a)).isSome = true := by
      rw [List.findIdx?_isSome, List.any_eq_true]
      exact ⟨x, hx, by simp [hxa]⟩
    obtain ⟨i, hi⟩ := Option.isSome_iff_exists.mp hsome
    have hilt : i < cards.length := (List.findIdx?_eq_some_iff_findIdx_eq.mp hi).1
    have hja : jsFindIndex cards a = (i : ℤ) := by
      unfold jsFindIndex
      rw [hi]
    have hsome2 : (handleDragEnd cards a b).isSome = true := by
      unfold handleDragEnd
      rw [if_pos hab, hja]
      exact arrayMove_isSome_of_lt cards i (jsFindIndex cards b) hilt
    obtain ⟨r, hr⟩ := Option.isSome_iff_exists.mp hsome2
    exact ⟨r, hr, (handleDragEnd_perm cards a b r hr).map CardData.id⟩

/-- Witness for claim C7: the drag of seed card "1" onto seed card "6"
succeeds and permutes the seed ids, with the presence hypothesis
discharged on the seed store. -/
theorem c7_witness :
    ∃ r, handleDragEnd initialCards "1" "6" = some r ∧
      (r.map CardData.id).Perm (initialCards.map CardData.id) :=
  (c7_drag_end_ids_perm initialCards "1" "6" (by decide)).1

/-- Claim C10: the delete and duplicate operations of the two component
versions are extensionally equal modulo the grid span fields the second
version added: deleting or duplicating a store and then forgetting the
grid fields gives the same store as forgetting the grid fields first and
running the first version's operation. -/
theorem c10_versions_agree (cards : List V2.CardData) (id newId : String) :
    V1.handleDeleteCard (cards.map forgetGridFields) id
      = (V2.handleDeleteCard cards id).map forgetGridFields ∧
    V1.handleDuplicateCard (cards.map forgetGridFields) newId
      = (V2.handleDuplicateCard cards newId).map forgetGridFields := by
  constructor
  · unfold V1.handleDeleteCard V2.handleDeleteCard
    rw [List.filter_map]
    rfl
  · cases cards with
    | nil => rfl
    | cons firstCard rest =>
      unfold V1.handleDuplicateCard V2.handleDuplicateCard
      simp only [List.map_cons, List.map_append, List.map_cons, List.map_nil]
      rfl

/-- Membership in the store produced by a duplication: every card of the
result is an old card or the appended clone of the first card. -/
theorem mem_handleDuplicateCard (cards : List CardData) (newId : String) (c : CardData)
    (hc : c ∈ handleDuplicateCard cards newId) :
    c ∈ cards ∨ ∃ firstCard, cards.head? = some firstCard ∧
      c = { firstCard with id := newId, title := firstCard.title ++ " (Copy)" } := by
  cases cards with
  | nil => cases hc
  | cons firstCard rest =>
    unfold handleDuplicateCard at hc
    rw [List.mem_append] at hc
    rcases hc with hc | hc
    · exact Or.inl hc
    · exact Or.inr ⟨firstCard, rfl, List.mem_singleton.mp hc⟩

/-- Claim C8 (amended): at every reachable page state the column count is
between 1 and 3, and every card's committed grid column span lies between
1 and 3 — the column count at the time of its commit. After a viewport
shrink the span is not re-clamped, so the bound that survives is the
maximum column count 3, not the current column count. -/
theorem c8_span_invariant (s : PageState) (hs : Reachable s) :
    (1 ≤ s.gridSize.columns ∧ s.gridSize.columns ≤ 3) ∧
    ∀ c ∈ s.cards, ∀ k, c.gridColumn = some k → 1 ≤ k ∧ k ≤ 3 := by
  induction hs with
  | init =>
    refine ⟨⟨by decide, by decide⟩, ?_⟩
    intro c hc k hk
    have hone : c.gridColumn = some 1 := by fin_cases hc <;> rfl
    rw [hone] at hk
    injection hk with hk
    omega
  | @step s t hr hst ih =>
    obtain ⟨⟨hcol1, hcol3⟩, hcards⟩ := ih
    cases hst with
    | deleteCard id =>
      refine ⟨⟨hcol1, hcol3⟩, ?_⟩
      intro c hc k hk
      exact hcards c (List.mem_of_mem_filter hc) k hk
    | resizeCommit id w h containerWidth =>
      refine ⟨⟨hcol1, hcol3⟩, ?_⟩
      intro c hc k hk
      unfold handleResizeCard at hc
      obtain ⟨a, ha, rfl⟩ := List.mem_map.mp hc
      by_cases hid : a.id = id
      · simp only [if_pos hid] at hk
        injection hk with hk
        obtain ⟨hlo, hhi⟩ := calculateGridSpan_bounds s.gridSize containerWidth w hcol1
        have hcast : (s.gridSize.columns : ℤ) ≤ 3 := by exact_mod_cast hcol3
        omega
      · simp only [if_neg hid] at hk
        exact hcards a ha k hk
    | duplicateCard newId =>
      refine ⟨⟨hcol1, hcol3⟩, ?_⟩
      intro c hc k hk
      rcases mem_handleDuplicateCard s.cards newId c hc with hold | ⟨firstCard, hhead, rfl⟩
      · exact hcards c hold k hk
      · exact hcards firstCard (List.mem_of_mem_head? (Option.mem_def.mpr hhead)) k hk
    | dragEnd a b r hde =>
      refine ⟨⟨hcol1, hcol3⟩, ?_⟩
      intro c hc k hk
      exact hcards c ((handleDragEnd_perm s.cards a b r hde).subset hc) k hk
    | viewportResize innerWidth =>
      refine ⟨?_, hcards⟩
      unfold updateGridSize
      split
      · exact ⟨by norm_num, by norm_num⟩
      · split
        · exact ⟨by norm_num, by norm_num⟩
        · exact ⟨by norm_num, by norm_num⟩

/-- Witness for claim C8 at the mount state: the column count is in range
and seed card "1" carries the span 1, which is in range; obtained from the
theorem with the reachability hypothesis discharged by the mount state. -/
theorem c8_witness :
    (1 ≤ initialState.gridSize.columns ∧ initialState.gridSize.columns ≤ 3) ∧
    ((1 : ℤ) ≤ 1 ∧ (1 : ℤ) ≤ 3) :=
  ⟨(c8_span_invariant initialState Reachable.init).1,
   (c8_span_invariant initialState Reachable.init).2 card1 (by decide) 1 rfl⟩

/-- The page state after committing a 900 by 200 pixel resize of seed card
"1" in a 900px container while the grid still has three columns: the card
commits a three-column span. -/
def resizedState : PageState :=
  { initialState with
      cards := handleResizeCard initialState.cards "1" 900 200
                 (calculateGridSpan initialState.gridSize 900 900) }

/-- The page state after the viewport then shrinks to 500px, which drops
the grid to one column without touching any committed span. -/
def shrunkState : PageState :=
  { resizedState with gridSize := updateGridSize 500 }

/-- Seed card "1" as it stands after committing the 900 by 200 resize with
its computed three-column span. -/
def resizedCard1 : CardData :=
  { card1 with width := some 900, height := some 200, gridColumn := some 3 }

/-- Counterexample for claim C8: after committing a three-column span and
then shrinking the viewport below 640px, the store still holds a card
whose span 3 exceeds the current column count 1 — the invariant over the
current column count fails at this reachable state. -/
theorem c8_counterexample :
    Reachable shrunkState ∧
    resizedCard1 ∈ shrunkState.cards ∧
    resizedCard1.gridColumn = some 3 ∧
    shrunkState.gridSize.columns = 1 ∧
    ¬ (∀ c ∈ shrunkState.cards, ∀ k, c.gridColumn = some k →
        1 ≤ k ∧ k ≤ (shrunkState.gridSize.columns : ℤ)) := by
  have h3 : calculateGridSpan initialState.gridSize 900 900 = 3 := by
    norm_num [calculateGridSpan, initialState]
  have hmem : resizedCard1 ∈ shrunkState.cards := by
    show resizedCard1 ∈ (handleResizeCard initialState.cards "1" 900 200
      (calculateGridSpan initialState.gridSize 900 900))
    rw [h3]
    decide
  refine ⟨?_, hmem, rfl, ?_, ?_⟩
  · exact Reachable.step (Reachable.step Reachable.init
      (Step.resizeCommit initialState "1" 900 200 900))
      (Step.viewportResize resizedState 500)
  · norm_num [shrunkState, updateGridSize]
  · intro hinv
    have hbad := hinv resizedCard1 hmem 3 rfl
    have hcols : shrunkState.gridSize.columns = 1 := by
      norm_num [shrunkState, updateGridSize]
    rw [hcols] at hbad
    omega

end Profile
